import Mathlib

/-!
Verification of the multi-backend database adapter layer
(`src-tauri/src/adapter.rs` and the shared types in
`src-tauri/src/commands.rs`).

The adapters talk to external database drivers over the network.  The
shallow embedding therefore models each driver interaction as an explicit
input (an `Except`-valued oracle describing what the driver returned),
while everything the repository's own code does with those responses —
parsing, value normalization, result assembly, registry bookkeeping — is
translated faithfully from the Rust source.

Numeric payloads of `serde_json::Number` are abstracted to `Int`; a
finite `f64` is modelled as `FloatVal.finite` carrying its (abstracted)
value and a NaN/infinity — for which `serde_json::Number::from_f64`
returns `None` — as `FloatVal.nanOrInf`.  No claim inspects the numeric
value itself, only the shape of the produced cell.
-/

/-- Shape of `serde_json::Value`.  The adapter layer is supposed to emit
only the four scalar shapes; `arr` and `obj` exist so that this can be
stated (and are never produced by the embedded conversion functions). -/
inductive JsonValue where
  | null
  | bool (b : Bool)
  | num (n : Int)
  | str (s : String)
  | arr (elems : List JsonValue)
  | obj (fields : List (String × JsonValue))
deriving Repr

/-- A cell is one of the four normalized scalar shapes (never an array
or an object). -/
def JsonValue.isScalar : JsonValue → Bool
  | .arr _ => false
  | .obj _ => false
  | _ => true

/-- Abstraction of a Rust `f64`: either a finite value (payload
abstracted to `Int`) or NaN/infinity. -/
inductive FloatVal where
  | finite (val : Int)
  | nanOrInf
deriving Repr, DecidableEq

/-- `serde_json::Number::from_f64`: `Some` exactly on finite floats. -/
def numberFromF64 : FloatVal → Option Int
  | .finite v => some v
  | .nanOrInf => none

/-- `AppError` from `commands.rs`. -/
inductive AppError where
  | NotFound (msg : String)
  | ConnectionFailed (msg : String)
  | QueryError (msg : String)
  | CsvParseError (msg : String)
  | ScanError (msg : String)
  | DatabaseError (msg : String)
deriving Repr, DecidableEq

/-- `ColumnInfo` from `commands.rs`. -/
structure ColumnInfo where
  name : String
  data_type : String
  nullable : Bool
  primary_key : Bool
deriving Repr, DecidableEq

/-- `TableSchema` from `commands.rs` (`row_count: u64`). -/
structure TableSchema where
  name : String
  columns : List ColumnInfo
  row_count : Nat
deriving Repr, DecidableEq

/-- `QueryResult` from `commands.rs`. -/
structure QueryResult where
  columns : List String
  rows : List (List JsonValue)
  row_count : Nat
  execution_time_ms : Nat
deriving Repr

/-- `IndexInfo` from `adapter.rs`. -/
structure IndexInfo where
  name : String
  columns : List String
  unique : Bool
deriving Repr, DecidableEq

/-- `ForeignKeyInfo` from `adapter.rs`. -/
structure ForeignKeyInfo where
  name : String
  from_column : String
  to_table : String
  to_column : String
deriving Repr, DecidableEq

/-- `TableMetadata` from `adapter.rs`. -/
structure TableMetadata where
  schema : TableSchema
  indexes : List IndexInfo
  foreign_keys : List ForeignKeyInfo
deriving Repr, DecidableEq

/-- The invariant stated for `QueryResult` in the spec: `row_count`
equals the number of rows and every row has exactly one cell per
column. -/
def resultInvariant (qr : QueryResult) : Prop :=
  qr.row_count = qr.rows.length ∧ ∀ row ∈ qr.rows, row.length = qr.columns.length

/-- All cells of a `QueryResult` are scalar (Null/Bool/Number/String). -/
def resultCellsScalar (qr : QueryResult) : Prop :=
  ∀ row ∈ qr.rows, ∀ v ∈ row, v.isScalar = true

/-- `DatabaseKind` from `adapter.rs`. -/
inductive DatabaseKind where
  | PostgreSQL
  | MySQL
  | SQLite
  | Redis
deriving Repr, DecidableEq

/-- Split a character list at its first space: the part before it and,
when a space exists, the untouched remainder. -/
def breakAtSpace : List Char → List Char × Option (List Char)
  | [] => ([], none)
  | c :: rest =>
    if c = ' ' then ([], some rest)
    else
      let r := breakAtSpace rest
      (c :: r.1, r.2)

/-- Rust `str::trim`: drop leading and trailing whitespace. -/
def trimChars (cs : List Char) : List Char :=
  ((cs.dropWhile Char.isWhitespace).reverse.dropWhile Char.isWhitespace).reverse

/-- Rust `str::trim` on a `String`. -/
def rustTrim (s : String) : String := String.mk (trimChars s.data)

/-- Rust `str::to_uppercase` (the inputs of interest are ASCII). -/
def rustToUppercase (s : String) : String := String.mk (s.data.map Char.toUpper)

/-- Rust `str::to_lowercase` (the inputs of interest are ASCII). -/
def rustToLowercase (s : String) : String := String.mk (s.data.map Char.toLower)

/-- The `match s.to_lowercase().as_str()` dispatch of
`DatabaseKind::from_str_loose`, on the already-lowered string. -/
def DatabaseKind.matchLowered (t : String) : Option DatabaseKind :=
  if t = "postgresql" ∨ t = "postgres" ∨ t = "pg" then some .PostgreSQL
  else if t = "mysql" ∨ t = "mariadb" then some .MySQL
  else if t = "sqlite" ∨ t = "sqlite3" then some .SQLite
  else if t = "redis" then some .Redis
  else none

/-- `DatabaseKind::from_str_loose`: lowercase the input, then match the
recognized aliases; anything else is `none`. -/
def DatabaseKind.from_str_loose (s : String) : Option DatabaseKind :=
  DatabaseKind.matchLowered (rustToLowercase s)

/-- The alias lists accepted by `from_str_loose`, per kind. -/
def kindAliases : DatabaseKind → List String
  | .PostgreSQL => ["postgresql", "postgres", "pg"]
  | .MySQL => ["mysql", "mariadb"]
  | .SQLite => ["sqlite", "sqlite3"]
  | .Redis => ["redis"]

-- ---------------------------------------------------------------------------
-- Redis adapter (`RedisAdapter` in adapter.rs)
-- ---------------------------------------------------------------------------

/-- Oracle for one multiplexed Redis connection: the response the server
gives to each command the adapter issues.  `Except String` models the
driver's `RedisResult`; a `GET` of a missing key surfaces as an error
when decoded as `String` (redis nil), which the Rust code absorbs with
`.ok()` / `unwrap_or`. -/
structure RedisConn where
  keysCmd : String → Except String (List String)
  typeCmd : String → Except String String
  getCmd : String → Except String String
  llenCmd : String → Except String Int
  scardCmd : String → Except String Int
  hlenCmd : String → Except String Int
  ttlCmd : String → Except String Int
  setCmd : String → String → Except String String
  delCmd : String → Except String Nat
  dbsizeCmd : Except String Nat

/-- Rust `str::splitn(2, ' ')`: split at the first space only. -/
def splitn2 (s : String) : List String :=
  match breakAtSpace s.data with
  | (a, none) => [String.mk a]
  | (a, some b) => [String.mk a, String.mk b]

/-- Rust `str::splitn(3, ' ')`: split at the first two spaces only. -/
def splitn3 (s : String) : List String :=
  match breakAtSpace s.data with
  | (a, none) => [String.mk a]
  | (a, some b) =>
    match breakAtSpace b with
    | (x, none) => [String.mk a, String.mk x]
    | (x, some y) => [String.mk a, String.mk x, String.mk y]

/-- The leading token of a Redis query, uppercased
(`parts.first().map(|s| s.to_uppercase()).unwrap_or_default()` after
`sql.trim()` and `splitn(2, ' ')`). -/
def redisCmdOf (sql : String) : String :=
  rustToUppercase ((splitn2 (rustTrim sql)).head?.getD "")

/-- The argument of a Redis query
(`parts.get(1).map(|s| s.trim()).unwrap_or("*")`). -/
def redisArgOf (sql : String) : String :=
  (((splitn2 (rustTrim sql)).get? 1).map rustTrim).getD "*"

/-- The leading token of a Redis write statement, uppercased (the
statement path uses `splitn(3, ' ')`). -/
def redisStmtCmdOf (sql : String) : String :=
  rustToUppercase ((splitn3 (rustTrim sql)).head?.getD "")

/-- One row of the KEYS/SCAN/SELECT scan loop body: probe the key's
type, produce the human-readable value summary, probe the TTL. -/
def redisScanRow (conn : RedisConn) (key : String) : List JsonValue :=
  let key_type := (conn.typeCmd key).toOption.getD "unknown"
  let value :=
    if key_type = "string" then (conn.getCmd key).toOption.getD "<error>"
    else if key_type = "list" then
      let len := (conn.llenCmd key).toOption.getD 0
      s!"<list: {len} items>"
    else if key_type = "set" then
      let len := (conn.scardCmd key).toOption.getD 0
      s!"<set: {len} members>"
    else if key_type = "hash" then
      let len := (conn.hlenCmd key).toOption.getD 0
      s!"<hash: {len} fields>"
    else s!"<{key_type}>"
  let ttl := (conn.ttlCmd key).toOption.getD (-1)
  [JsonValue.str key, JsonValue.str value, JsonValue.str key_type,
    if ttl ≥ 0 then JsonValue.num ttl else JsonValue.null]

/-- `RedisAdapter::execute_query`.  `connAttempt` is the outcome of
`get_multiplexed_async_connection`, `timedOut` the query-timeout wrapper,
`elapsedMs` the measured wall clock. -/
def RedisAdapter.execute_query (connAttempt : Except String RedisConn)
    (timedOut : Bool) (sql : String) (elapsedMs : Nat) :
    Except AppError QueryResult :=
  if timedOut then .error (.ConnectionFailed "Operation timed out") else
  match connAttempt with
  | .error e => .error (.QueryError e)
  | .ok conn =>
    let cmd := redisCmdOf sql
    let arg := redisArgOf sql
    if cmd = "KEYS" ∨ cmd = "SCAN" ∨ cmd = "SELECT" then
      let pattern := if cmd = "SELECT" then "*" else arg
      match conn.keysCmd pattern with
      | .error e => .error (.QueryError e)
      | .ok keys =>
        let rows := (keys.take 100).map (redisScanRow conn)
        .ok { columns := ["key", "value", "type", "ttl"],
              rows := rows, row_count := rows.length,
              execution_time_ms := elapsedMs }
    else if cmd = "GET" then
      let val := (conn.getCmd arg).toOption
      .ok { columns := ["key", "value"],
            rows := [[JsonValue.str arg,
                      (val.map JsonValue.str).getD JsonValue.null]],
            row_count := 1, execution_time_ms := elapsedMs }
    else
      .error (.QueryError
        s!"Unsupported Redis command: {cmd}. Use KEYS, SCAN, GET, or SELECT.")

/-- `RedisAdapter::execute_statement`. -/
def RedisAdapter.execute_statement (connAttempt : Except String RedisConn)
    (timedOut : Bool) (sql : String) : Except AppError Nat :=
  if timedOut then .error (.ConnectionFailed "Operation timed out") else
  match connAttempt with
  | .error e => .error (.QueryError e)
  | .ok conn =>
    let parts := splitn3 (rustTrim sql)
    let cmd := redisStmtCmdOf sql
    if cmd = "SET" then
      let key := (parts.get? 1).getD ""
      let val := (parts.get? 2).getD ""
      match conn.setCmd key val with
      | .error e => .error (.QueryError e)
      | .ok _ => .ok 1
    else if cmd = "DEL" ∨ cmd = "DELETE" then
      let key := (parts.get? 1).getD ""
      match conn.delCmd key with
      | .error e => .error (.QueryError e)
      | .ok deleted => .ok deleted
    else
      .error (.QueryError
        s!"Unsupported Redis write command: {cmd}. Use SET or DEL.")

/-- The single pseudo-table synthesized by `RedisAdapter::get_schema`. -/
def keysPseudoTable (db_size : Nat) : TableSchema :=
  { name := "keys",
    columns := [
      { name := "key", data_type := "string", nullable := false, primary_key := true },
      { name := "value", data_type := "string", nullable := true, primary_key := false },
      { name := "type", data_type := "string", nullable := false, primary_key := false },
      { name := "ttl", data_type := "integer", nullable := true, primary_key := false }],
    row_count := db_size }

/-- `RedisAdapter::get_schema`: one pseudo-table named "keys", row count
from `DBSIZE`. -/
def RedisAdapter.get_schema (connAttempt : Except String RedisConn)
    (timedOut : Bool) : Except AppError (List TableSchema) :=
  if timedOut then .error (.ConnectionFailed "Operation timed out") else
  match connAttempt with
  | .error e => .error (.QueryError e)
  | .ok conn =>
    match conn.dbsizeCmd with
    | .error e => .error (.QueryError e)
    | .ok db_size => .ok [keysPseudoTable db_size]

/-- `RedisAdapter::get_table_metadata`: ignores the `_table` argument
entirely and returns the first (only) schema entry with no indexes and
no foreign keys.  The `.ok []` arm is unreachable — `get_schema` always
returns a one-element list — and models the Rust `unwrap`. -/
def RedisAdapter.get_table_metadata (connAttempt : Except String RedisConn)
    (timedOut : Bool) (_table : String) : Except AppError TableMetadata :=
  match RedisAdapter.get_schema connAttempt timedOut with
  | .error e => .error e
  | .ok (t :: _) => .ok { schema := t, indexes := [], foreign_keys := [] }
  | .ok [] => .error (.QueryError "unreachable: empty redis schema")

/-- `RedisAdapter::disconnect` is `Ok(())`. -/
def RedisAdapter.disconnect : Except AppError Unit := .ok ()

-- ---------------------------------------------------------------------------
-- PostgreSQL adapter (`PostgresAdapter` in adapter.rs)
-- ---------------------------------------------------------------------------

/-- The Postgres column types distinguished by `pg_value_to_json`;
everything else takes the fallback branch. -/
inductive PgColType where
  | bool | int2 | int4 | int8 | float4 | float8
  | text | varchar | name | bpchar | other
deriving Repr, DecidableEq

/-- A column of a prepared statement: its name and wire type. -/
structure PgColumn where
  colName : String
  ty : PgColType
deriving Repr

/-- Abstraction of one wire cell of a Postgres row: the outcome of each
`row.try_get::<T>(idx)` the conversion may attempt (`none` models a NULL
or a decode failure). -/
structure PgCell where
  getBool : Option Bool
  getI16 : Option Int
  getI32 : Option Int
  getI64 : Option Int
  getF32 : Option FloatVal
  getF64 : Option FloatVal
  getString : Option String

/-- `pg_value_to_json`: dispatch on the column type, try the matching
decode, fall back to `Null`; unknown types fall back to a string
decode. -/
def pg_value_to_json (cell : PgCell) (col_type : PgColType) : JsonValue :=
  match col_type with
  | .bool => (cell.getBool.map JsonValue.bool).getD .null
  | .int2 => (cell.getI16.map JsonValue.num).getD .null
  | .int4 => (cell.getI32.map JsonValue.num).getD .null
  | .int8 => (cell.getI64.map JsonValue.num).getD .null
  | .float4 => ((cell.getF32.bind numberFromF64).map JsonValue.num).getD .null
  | .float8 => ((cell.getF64.bind numberFromF64).map JsonValue.num).getD .null
  | .text | .varchar | .name | .bpchar =>
      (cell.getString.map JsonValue.str).getD .null
  | .other => (cell.getString.map JsonValue.str).getD .null

/-- A prepared statement: `stmt.columns()`. -/
structure PgStmt where
  cols : List PgColumn

/-- The driver-side outcome of `PostgresAdapter::execute_query`: the
query timeout elapsed, `prepare` failed, `query` failed, or both
succeeded, yielding the statement's columns, the wire rows (indexed cell
access, as `row.try_get(i)` does) and the measured wall clock. -/
inductive PgExec where
  | timeout
  | prepareErr (e : String)
  | queryErr (stmt : PgStmt) (e : String)
  | ok (stmt : PgStmt) (rows : List (Nat → PgCell)) (elapsedMs : Nat)

/-- `PostgresAdapter::execute_query`: columns from the prepared
statement, one normalized value per statement column per row. -/
def PostgresAdapter.execute_query : PgExec → Except AppError QueryResult
  | .timeout => .error (.ConnectionFailed "Operation timed out")
  | .prepareErr e => .error (.QueryError e)
  | .queryErr _ e => .error (.QueryError e)
  | .ok stmt rows elapsedMs =>
    let columns := stmt.cols.map (·.colName)
    let result_rows := rows.map (fun row =>
      stmt.cols.enum.map (fun ic => pg_value_to_json (row ic.1) ic.2.ty))
    .ok { columns := columns, rows := result_rows,
          row_count := result_rows.length, execution_time_ms := elapsedMs }

/-- A row of the `pg_index` introspection query in
`PostgresAdapter::get_table_metadata`: index name, ordered column names,
uniqueness flag. -/
structure PgIdxRow where
  relname : String
  cols : List String
  indisunique : Bool

/-- A row of the foreign-key introspection query. -/
structure PgFkRow where
  constraint_name : String
  from_col : String
  to_table : String
  to_col : String

/-- `PostgresAdapter::get_table_metadata`: reuse `get_schema` (its
outcome is the `schemaResult` input), return `NotFound` when the table
is absent from it, otherwise run the index and foreign-key
introspection queries. -/
def PostgresAdapter.get_table_metadata
    (schemaResult : Except AppError (List TableSchema)) (timedOut : Bool)
    (idxQuery : Except String (List PgIdxRow))
    (fkQuery : Except String (List PgFkRow))
    (table : String) : Except AppError TableMetadata :=
  match schemaResult with
  | .error e => .error e
  | .ok tables =>
    match tables.find? (fun t => t.name = table) with
    | none => .error (.NotFound s!"Table {table} not found")
    | some table_schema =>
      if timedOut then .error (.ConnectionFailed "Operation timed out") else
      match idxQuery with
      | .error e => .error (.QueryError e)
      | .ok idx_rows =>
        match fkQuery with
        | .error e => .error (.QueryError e)
        | .ok fk_rows =>
          .ok { schema := table_schema,
                indexes := idx_rows.map (fun r =>
                  { name := r.relname, columns := r.cols, unique := r.indisunique }),
                foreign_keys := fk_rows.map (fun r =>
                  { name := r.constraint_name, from_column := r.from_col,
                    to_table := r.to_table, to_column := r.to_col }) }

/-- `PostgresAdapter::disconnect` is `Ok(())` (dropping closes). -/
def PostgresAdapter.disconnect : Except AppError Unit := .ok ()

-- ---------------------------------------------------------------------------
-- MySQL adapter (`MySqlAdapter` in adapter.rs)
-- ---------------------------------------------------------------------------

/-- `mysql_async::Value`.  `Bytes` carries the outcome of
`String::from_utf8` on its byte vector (`none` = not valid UTF-8);
`other` covers the remaining variants (`Date`, `Time`), for which the
code emits the `Debug` formatting as a string. -/
inductive MyValue where
  | NULL
  | Int (i : Int)
  | UInt (u : Nat)
  | Float (f : FloatVal)
  | Double (f : FloatVal)
  | Bytes (utf8 : Option String)
  | other (debugRepr : String)
deriving Repr

/-- `mysql_value_to_json`. -/
def mysql_value_to_json : MyValue → JsonValue
  | .NULL => .null
  | .Int i => .num i
  | .UInt u => .num u
  | .Float f => ((numberFromF64 f).map JsonValue.num).getD .null
  | .Double f => ((numberFromF64 f).map JsonValue.num).getD .null
  | .Bytes (some s) => .str s
  | .Bytes none => .null
  | .other d => .str d

/-- One `mysql_async::Row`: the column names of its `columns_ref()` and
indexed cell access (`row.get(i)` is `none` out of range). -/
structure MyRow where
  colNames : List String
  get : Nat → Option MyValue

/-- Driver-side outcome of `MySqlAdapter::execute_query`. -/
inductive MyExec where
  | timeout
  | connErr (e : String)
  | queryErr (e : String)
  | ok (result : List MyRow) (elapsedMs : Nat)

/-- `MySqlAdapter::execute_query`: an empty driver result yields empty
columns and rows; otherwise columns come from the first row and every
row contributes `columns.len()` cells, absent cells defaulting to
`NULL`. -/
def MySqlAdapter.execute_query : MyExec → Except AppError QueryResult
  | .timeout => .error (.ConnectionFailed "Operation timed out")
  | .connErr e => .error (.QueryError e)
  | .queryErr e => .error (.QueryError e)
  | .ok result elapsedMs =>
    match result with
    | [] => .ok { columns := [], rows := [], row_count := 0,
                  execution_time_ms := elapsedMs }
    | r0 :: _ =>
      let columns := r0.colNames
      let rows := result.map (fun row =>
        (List.range columns.length).map (fun i =>
          mysql_value_to_json ((row.get i).getD .NULL)))
      .ok { columns := columns, rows := rows, row_count := rows.length,
            execution_time_ms := elapsedMs }

/-- One step of the index grouping in `MySqlAdapter::get_table_metadata`
(`idx_map.entry(name).or_insert((Vec::new(), non_unique == 0)); entry.0.push(col)`),
on an association list. -/
def mysqlIdxInsert (acc : List (String × List String × Bool))
    (idx_name col : String) (non_unique : Int) :
    List (String × List String × Bool) :=
  match acc with
  | [] => [(idx_name, [col], non_unique == 0)]
  | (n, cols, u) :: rest =>
    if n = idx_name then (n, cols ++ [col], u) :: rest
    else (n, cols, u) :: mysqlIdxInsert rest idx_name col non_unique

/-- Group the per-column statistics rows into (index name → ordered
columns, uniqueness).  Rust iterates a `HashMap` afterwards, whose order
is unspecified; the association list preserves first-seen order, one
admissible order. -/
def mysqlGroupIdx (rows : List (String × String × Int)) :
    List (String × List String × Bool) :=
  rows.foldl (fun acc r => mysqlIdxInsert acc r.1 r.2.1 r.2.2) []

/-- `MySqlAdapter::get_table_metadata`: `NotFound` when the table is
absent from `get_schema`, otherwise group the statistics rows into
indexes and convert the foreign-key rows. -/
def MySqlAdapter.get_table_metadata
    (schemaResult : Except AppError (List TableSchema)) (timedOut : Bool)
    (idxQuery : Except String (List (String × String × Int)))
    (fkQuery : Except String (List (String × String × String × String)))
    (table : String) : Except AppError TableMetadata :=
  match schemaResult with
  | .error e => .error e
  | .ok tables =>
    match tables.find? (fun t => t.name = table) with
    | none => .error (.NotFound s!"Table {table} not found")
    | some table_schema =>
      if timedOut then .error (.ConnectionFailed "Operation timed out") else
      match idxQuery with
      | .error e => .error (.QueryError e)
      | .ok idx_rows =>
        match fkQuery with
        | .error e => .error (.QueryError e)
        | .ok fk_rows =>
          .ok { schema := table_schema,
                indexes := (mysqlGroupIdx idx_rows).map (fun g =>
                  { name := g.1, columns := g.2.1, unique := g.2.2 }),
                foreign_keys := fk_rows.map (fun r =>
                  { name := r.1, from_column := r.2.1,
                    to_table := r.2.2.1, to_column := r.2.2.2 }) }

/-- `MySqlAdapter::disconnect`: unlike every other adapter this one can
fail — `pool.disconnect()` errors map to `ConnectionFailed`, as does the
query timeout. -/
def MySqlAdapter.disconnect (timedOut : Bool)
    (poolDisconnect : Except String Unit) : Except AppError Unit :=
  if timedOut then .error (.ConnectionFailed "Operation timed out") else
  match poolDisconnect with
  | .error e => .error (.ConnectionFailed e)
  | .ok _ => .ok ()

-- ---------------------------------------------------------------------------
-- SQLite adapter (`SqliteAdapter` in adapter.rs)
-- ---------------------------------------------------------------------------

/-- `rusqlite::types::ValueRef`.  `Text` carries the result of
`String::from_utf8_lossy` on its bytes; `Blob` only its length, which is
all the code reads. -/
inductive SqValueRef where
  | Null
  | Integer (i : Int)
  | Real (f : FloatVal)
  | Text (s : String)
  | Blob (len : Nat)
deriving Repr

/-- One SQLite row: `row.get_ref(idx)` per index (`error` models an
out-of-range or driver failure, mapped to `Null`). -/
structure SqRow where
  get_ref : Nat → Except Unit SqValueRef

/-- `sqlite_value_to_json`. -/
def sqlite_value_to_json (row : SqRow) (idx : Nat) : JsonValue :=
  match row.get_ref idx with
  | .ok .Null => .null
  | .ok (.Integer i) => .num i
  | .ok (.Real f) => ((numberFromF64 f).map JsonValue.num).getD .null
  | .ok (.Text t) => .str t
  | .ok (.Blob len) => .str s!"<blob {len} bytes>"
  | .error _ => .null

/-- A prepared SQLite statement: `stmt.column_names()`. -/
structure SqStmt where
  column_names : List String

/-- Driver-side outcome of `SqliteAdapter::execute_query`: `prepare` or
`query_map` failed, or iteration yielded a list of row fetches, failed
fetches being dropped by `filter_map(|r| r.ok())`. -/
inductive SqExec where
  | prepareErr (e : String)
  | queryMapErr (stmt : SqStmt) (e : String)
  | ok (stmt : SqStmt) (rows : List (Except Unit SqRow)) (elapsedMs : Nat)

/-- `SqliteAdapter::execute_query`. -/
def SqliteAdapter.execute_query : SqExec → Except AppError QueryResult
  | .prepareErr e => .error (.QueryError e)
  | .queryMapErr _ e => .error (.QueryError e)
  | .ok stmt fetched elapsedMs =>
    let columns := stmt.column_names
    let rows := (fetched.filterMap Except.toOption).map (fun row =>
      (List.range columns.length).map (fun i => sqlite_value_to_json row i))
    .ok { columns := columns, rows := rows, row_count := rows.length,
          execution_time_ms := elapsedMs }

/-- Collect the per-index columns in `SqliteAdapter::get_table_metadata`:
for each `(name, unique)` of `PRAGMA index_list`, run
`PRAGMA index_info(name)`; a failing prepare aborts with `QueryError`,
failing column rows are dropped. -/
def sqliteCollectIndexes
    (infoQuery : String → Except String (List (Option String))) :
    List (String × Bool) → Except AppError (List IndexInfo)
  | [] => .ok []
  | (idx_name, unique) :: rest =>
    match infoQuery idx_name with
    | .error e => .error (.QueryError e)
    | .ok col_rows =>
      match sqliteCollectIndexes infoQuery rest with
      | .error e => .error e
      | .ok more =>
        .ok ({ name := idx_name, columns := col_rows.filterMap id,
               unique := unique } :: more)

/-- A row of `PRAGMA foreign_key_list`: id, referenced table, from
column, to column (the fields the code reads). -/
structure SqFkRow where
  fk_id : Int
  to_table : String
  from_col : String
  to_col : String

/-- `SqliteAdapter::get_table_metadata`: `NotFound` when the table is
absent from `get_schema`, then the index and foreign-key pragmas;
failing rows are dropped by `filter_map`. -/
def SqliteAdapter.get_table_metadata
    (schemaResult : Except AppError (List TableSchema))
    (idxListQuery : Except String (List (Option (String × Bool))))
    (infoQuery : String → Except String (List (Option String)))
    (fkQuery : Except String (List (Option SqFkRow)))
    (table : String) : Except AppError TableMetadata :=
  match schemaResult with
  | .error e => .error e
  | .ok tables =>
    match tables.find? (fun t => t.name = table) with
    | none => .error (.NotFound s!"Table {table} not found")
    | some table_schema =>
      match idxListQuery with
      | .error e => .error (.QueryError e)
      | .ok idx_list =>
        match sqliteCollectIndexes infoQuery (idx_list.filterMap id) with
        | .error e => .error e
        | .ok indexes =>
          match fkQuery with
          | .error e => .error (.QueryError e)
          | .ok fk_rows =>
            .ok { schema := table_schema, indexes := indexes,
                  foreign_keys := (fk_rows.filterMap id).map (fun r =>
                    let fid := r.fk_id
                    { name := s!"fk_{fid}", from_column := r.from_col,
                      to_table := r.to_table, to_column := r.to_col }) }

/-- `SqliteAdapter::disconnect` is `Ok(())`. -/
def SqliteAdapter.disconnect : Except AppError Unit := .ok ()

-- ---------------------------------------------------------------------------
-- Connection registry (`ConnectionManager` in adapter.rs)
-- ---------------------------------------------------------------------------

/-- An adapter instance held by the registry: an identity (so that
replacement can be observed) and the outcome its own `disconnect` would
produce when invoked. -/
structure AdapterInst where
  instId : Nat
  disconnectResult : Except AppError Unit
deriving Repr

/-- The registry's `HashMap<String, Arc<dyn DatabaseAdapter>>`, as an
association list with unique keys maintained by the operations. -/
def Registry := List (String × AdapterInst)

/-- `HashMap::get`. -/
def registryLookup (st : Registry) (id : String) : Option AdapterInst :=
  (st.find? (fun p => p.1 = id)).map (·.2)

/-- `HashMap::insert`: bind `id`, replacing any prior entry. -/
def registryInsert (st : Registry) (id : String) (a : AdapterInst) : Registry :=
  (id, a) :: st.filter (fun p => p.1 ≠ id)

/-- `HashMap::remove`: the removed value, if any, and the rest. -/
def registryRemove (st : Registry) (id : String) :
    Option AdapterInst × Registry :=
  (registryLookup st id, st.filter (fun p => p.1 ≠ id))

/-- Outcome of one registry operation: the returned value, the registry
state afterwards, and the identities of every adapter whose own
`disconnect` the operation invoked. -/
structure OpResult (α : Type) where
  result : Except AppError α
  state : Registry
  disconnectCalls : List Nat

/-- `ConnectionManager::connect`: construct the adapter for
`params.kind` (`construct` is that constructor's outcome), then insert
it under `id`, unconditionally replacing any prior entry.  No
`disconnect` is ever invoked on the replaced adapter. -/
def ConnectionManager.connect (st : Registry) (id : String)
    (construct : Except AppError AdapterInst) : OpResult Unit :=
  match construct with
  | .error e => { result := .error e, state := st, disconnectCalls := [] }
  | .ok adapter =>
    { result := .ok (), state := registryInsert st id adapter,
      disconnectCalls := [] }

/-- `ConnectionManager::get`: shared lookup, `NotFound` when absent. -/
def ConnectionManager.get (st : Registry) (id : String) :
    Except AppError AdapterInst :=
  match registryLookup st id with
  | some a => .ok a
  | none => .error (.NotFound s!"Connection {id} not active")

/-- `ConnectionManager::disconnect`: remove the entry; when one was
present, invoke its own `disconnect` and propagate its error; a missing
entry is a no-op `Ok`. -/
def ConnectionManager.disconnect (st : Registry) (id : String) : OpResult Unit :=
  match registryRemove st id with
  | (none, rest) => { result := .ok (), state := rest, disconnectCalls := [] }
  | (some adapter, rest) =>
    { result := adapter.disconnectResult,
      state := rest, disconnectCalls := [adapter.instId] }

-- ---------------------------------------------------------------------------
-- Shared sample inputs and helper lemmas
-- ---------------------------------------------------------------------------

/-- A healthy Redis connection oracle used by several concrete checks:
two string keys, every probe succeeds, five keys in the store. -/
def scanConnSample : RedisConn :=
  { keysCmd := fun _ => .ok ["a", "b"],
    typeCmd := fun _ => .ok "string",
    getCmd := fun _ => .ok "v",
    llenCmd := fun _ => .ok 0,
    scardCmd := fun _ => .ok 0,
    hlenCmd := fun _ => .ok 0,
    ttlCmd := fun _ => .ok 10,
    setCmd := fun _ _ => .ok "OK",
    delCmd := fun _ => .ok 1,
    dbsizeCmd := .ok 5 }

/-- A Redis connection oracle whose `GET` always fails to decode (the
driver's behavior for a missing key). -/
def missConnSample : RedisConn :=
  { scanConnSample with getCmd := fun _ => .error "nil" }

/-- The result of `execute_query("KEYS *")` against `scanConnSample`. -/
def scanQrSample : QueryResult :=
  { columns := ["key", "value", "type", "ttl"],
    rows := [[JsonValue.str "a", JsonValue.str "v", JsonValue.str "string",
              JsonValue.num 10],
             [JsonValue.str "b", JsonValue.str "v", JsonValue.str "string",
              JsonValue.num 10]],
    row_count := 2, execution_time_ms := 7 }

/-- A scan row of `redisScanRow` always has exactly four cells. -/
theorem redisScanRow_length (conn : RedisConn) (key : String) :
    (redisScanRow conn key).length = 4 := rfl

/-- Mapping a scalar-producing conversion over an optional value and
defaulting to `Null` yields a scalar. -/
theorem scalar_getD_map {α : Type} (o : Option α) (f : α → JsonValue)
    (hf : ∀ a, (f a).isScalar = true) :
    (((o.map f).getD .null).isScalar) = true := by
  cases o with
  | none => rfl
  | some a => exact hf a

/-- Every value `pg_value_to_json` produces is scalar. -/
theorem pg_value_to_json_scalar (cell : PgCell) (t : PgColType) :
    (pg_value_to_json cell t).isScalar = true := by
  cases t <;> simp only [pg_value_to_json] <;>
    exact scalar_getD_map _ _ (fun a => rfl)

/-- Every value `mysql_value_to_json` produces is scalar. -/
theorem mysql_value_to_json_scalar (v : MyValue) :
    (mysql_value_to_json v).isScalar = true := by
  cases v <;> first
    | rfl
    | (rename_i x; cases x <;> rfl)

/-- Every value `sqlite_value_to_json` produces is scalar. -/
theorem sqlite_value_to_json_scalar (row : SqRow) (idx : Nat) :
    (sqlite_value_to_json row idx).isScalar = true := by
  unfold sqlite_value_to_json
  rcases h : row.get_ref idx with e | v
  · rfl
  · cases v with
    | Real f => cases f <;> rfl
    | _ => rfl

/-- Every cell of a Redis scan row is scalar. -/
theorem redisScanRow_scalar (conn : RedisConn) (key : String) :
    ∀ v ∈ redisScanRow conn key, v.isScalar = true := by
  intro v hv
  unfold redisScanRow at hv
  simp only [List.mem_cons, List.mem_singleton] at hv
  rcases hv with rfl | rfl | rfl | rfl | h
  · rfl
  · rfl
  · rfl
  · split <;> rfl
  · cases h

-- ---------------------------------------------------------------------------
-- Claim theorems
-- ---------------------------------------------------------------------------

/-- C9: `BackendKind` parsing is case-insensitive over the recognized
aliases and yields no match (never a default) on anything else: a parse
returns `some k` exactly when the lowercased input is one of `k`'s
aliases, and returns `none` exactly when the lowercased input is none
of the aliases of any kind.  Case-insensitivity is captured by the
result depending only on `s.toLower`. -/
theorem from_str_loose_characterization (s : String) :
    (∀ k : DatabaseKind,
      DatabaseKind.from_str_loose s = some k ↔ rustToLowercase s ∈ kindAliases k) ∧
    (DatabaseKind.from_str_loose s = none ↔
      ∀ k : DatabaseKind, rustToLowercase s ∉ kindAliases k) := by
  have hsome : ∀ (t : String) (k : DatabaseKind),
      DatabaseKind.matchLowered t = some k ↔ t ∈ kindAliases k := by
    intro t k
    unfold DatabaseKind.matchLowered
    split_ifs with h1 h2 h3 h4
    · rcases h1 with rfl | rfl | rfl <;> cases k <;> decide
    · rcases h2 with rfl | rfl <;> cases k <;> decide
    · rcases h3 with rfl | rfl <;> cases k <;> decide
    · subst h4; cases k <;> decide
    · cases k <;>
        simp only [kindAliases, List.mem_cons, List.mem_singleton,
          List.not_mem_nil, or_false] <;> simp_all
  refine ⟨fun k => ?_, ?_, ?_⟩
  · rw [DatabaseKind.from_str_loose]
    exact hsome (rustToLowercase s) k
  · intro h k hk
    have hx := (hsome (rustToLowercase s) k).2 hk
    rw [DatabaseKind.from_str_loose] at h
    rw [h] at hx
    cases hx
  · intro h
    rw [DatabaseKind.from_str_loose]
    cases hm : DatabaseKind.matchLowered (rustToLowercase s) with
    | none => rfl
    | some k => exact absurd ((hsome (rustToLowercase s) k).1 hm) (h k)

/-- C8: a key-value `execute_query` whose leading token is KEYS, SCAN or
SELECT returns at most 100 rows, whatever the pattern and however many
keys of the store the server reports as matching. -/
theorem redis_scan_capped (conn : RedisConn) (sql : String) (t : Nat)
    (qr : QueryResult)
    (hcmd : redisCmdOf sql = "KEYS" ∨ redisCmdOf sql = "SCAN" ∨
      redisCmdOf sql = "SELECT")
    (hok : RedisAdapter.execute_query (.ok conn) false sql t = .ok qr) :
    qr.row_count ≤ 100 ∧ qr.rows.length ≤ 100 := by
  rw [RedisAdapter.execute_query] at hok
  simp only [Bool.false_eq_true, if_false, if_pos hcmd] at hok
  cases hk : conn.keysCmd (if redisCmdOf sql = "SELECT" then "*" else redisArgOf sql) with
  | error e => rw [hk] at hok; cases hok
  | ok keys =>
    rw [hk] at hok
    cases hok
    constructor <;>
      simp [List.length_map, List.length_take, Nat.min_le_left]

/-- Concrete instantiation of `redis_scan_capped`: a `KEYS *` scan over
`scanConnSample`. -/
theorem redis_scan_capped_witness :
    (redisCmdOf "KEYS *" = "KEYS" ∨ redisCmdOf "KEYS *" = "SCAN" ∨
      redisCmdOf "KEYS *" = "SELECT") ∧
    ((scanQrSample.row_count ≤ 100) ∧ scanQrSample.rows.length ≤ 100) :=
  ⟨Or.inl rfl,
    redis_scan_capped scanConnSample "KEYS *" 7 scanQrSample (Or.inl rfl) rfl⟩

/-- C7: a key-value `execute_query` whose leading token is GET returns
exactly one row pairing the requested key with its value, with
`row_count = 1`; a key the server cannot return (missing) yields a null
value cell. -/
theorem redis_get_single_row (conn : RedisConn) (sql : String) (t : Nat)
    (hcmd : redisCmdOf sql = "GET") :
    RedisAdapter.execute_query (.ok conn) false sql t =
      .ok { columns := ["key", "value"],
            rows := [[JsonValue.str (redisArgOf sql),
                      (((conn.getCmd (redisArgOf sql)).toOption).map
                        JsonValue.str).getD .null]],
            row_count := 1, execution_time_ms := t } ∧
    (∀ e, conn.getCmd (redisArgOf sql) = .error e →
      RedisAdapter.execute_query (.ok conn) false sql t =
        .ok { columns := ["key", "value"],
              rows := [[JsonValue.str (redisArgOf sql), JsonValue.null]],
              row_count := 1, execution_time_ms := t }) := by
  have hmain : RedisAdapter.execute_query (.ok conn) false sql t =
      .ok { columns := ["key", "value"],
            rows := [[JsonValue.str (redisArgOf sql),
                      (((conn.getCmd (redisArgOf sql)).toOption).map
                        JsonValue.str).getD .null]],
            row_count := 1, execution_time_ms := t } := by
    rw [RedisAdapter.execute_query]
    simp [hcmd]
  refine ⟨hmain, fun e he => ?_⟩
  rw [hmain, he]
  rfl

/-- Concrete instantiation of `redis_get_single_row`: the spec's own
test vector `execute_query("GET missing-key")` against a store where
the key is absent. -/
theorem redis_get_single_row_witness :
    redisCmdOf "GET missing-key" = "GET" ∧
    RedisAdapter.execute_query (.ok missConnSample) false "GET missing-key" 3 =
      .ok { columns := ["key", "value"],
            rows := [[JsonValue.str "missing-key", JsonValue.null]],
            row_count := 1, execution_time_ms := 3 } :=
  ⟨rfl, (redis_get_single_row missConnSample "GET missing-key" 3 rfl).2 "nil" rfl⟩

/-- C6 counterexample: the statement `"DELETE session"` has leading
token `DELETE`, which is neither `SET` nor `DEL`, yet
`execute_statement` succeeds (the code also accepts the `DELETE`
alias). -/
theorem redis_delete_alias_counterexample :
    redisStmtCmdOf "DELETE session" ≠ "SET" ∧
    redisStmtCmdOf "DELETE session" ≠ "DEL" ∧
    RedisAdapter.execute_statement (.ok scanConnSample) false "DELETE session" =
      .ok 1 :=
  ⟨by decide, by decide, rfl⟩

/-- C6 amended: key-value `execute_statement` succeeds only when the
uppercased leading token is SET, DEL, or DELETE; with a live connection,
any other leading token yields the unsupported-command `QueryError`. -/
theorem redis_statement_commands :
    (∀ (connAttempt : Except String RedisConn) (timedOut : Bool)
        (sql : String) (n : Nat),
      RedisAdapter.execute_statement connAttempt timedOut sql = .ok n →
      redisStmtCmdOf sql = "SET" ∨ redisStmtCmdOf sql = "DEL" ∨
        redisStmtCmdOf sql = "DELETE") ∧
    (∀ (conn : RedisConn) (sql : String),
      ¬(redisStmtCmdOf sql = "SET" ∨ redisStmtCmdOf sql = "DEL" ∨
          redisStmtCmdOf sql = "DELETE") →
      RedisAdapter.execute_statement (.ok conn) false sql =
        .error (.QueryError
          s!"Unsupported Redis write command: {redisStmtCmdOf sql}. Use SET or DEL.")) := by
  constructor
  · intro connAttempt timedOut sql n hok
    rw [RedisAdapter.execute_statement.eq_def] at hok
    by_contra hcmd
    push_neg at hcmd
    obtain ⟨h1, h2, h3⟩ := hcmd
    cases timedOut with
    | true => cases hok
    | false =>
      cases connAttempt with
      | error e => cases hok
      | ok conn =>
        simp only [Bool.false_eq_true, if_false, if_neg h1] at hok
        rw [if_neg (by simp [h2, h3])] at hok
        cases hok
  · intro conn sql hcmd
    push_neg at hcmd
    obtain ⟨h1, h2, h3⟩ := hcmd
    rw [RedisAdapter.execute_statement.eq_def]
    simp only [Bool.false_eq_true, if_false, if_neg h1]
    rw [if_neg (by simp [h2, h3])]

/-- Concrete instantiation of `redis_statement_commands`: `FLUSHALL` is
rejected with a `QueryError`. -/
theorem redis_statement_commands_witness :
    ¬(redisStmtCmdOf "FLUSHALL" = "SET" ∨ redisStmtCmdOf "FLUSHALL" = "DEL" ∨
        redisStmtCmdOf "FLUSHALL" = "DELETE") ∧
    RedisAdapter.execute_statement (.ok scanConnSample) false "FLUSHALL" =
      .error (.QueryError
        "Unsupported Redis write command: FLUSHALL. Use SET or DEL.") := by
  refine ⟨by decide, ?_⟩
  have h := redis_statement_commands.2 scanConnSample "FLUSHALL" (by decide)
  exact h.trans (by rfl)

/-- C4 counterexample: the MySQL adapter's `disconnect` maps a pool
shutdown failure to `ConnectionFailed`, and the registry propagates a
registered adapter's `disconnect` error — so neither 'adapter disconnect
never fails the caller' nor 'registry disconnect never errors' holds. -/
theorem mysql_disconnect_error_counterexample :
    MySqlAdapter.disconnect false (.error "broken pipe") =
      .error (.ConnectionFailed "broken pipe") ∧
    (ConnectionManager.disconnect
        [("conn-1", { instId := 1,
                      disconnectResult :=
                        .error (.ConnectionFailed "broken pipe") })]
        "conn-1").result = .error (.ConnectionFailed "broken pipe") :=
  ⟨rfl, rfl⟩

/-- C4 amended: `ConnectionManager::disconnect` returns `Ok` whenever
the identifier is not registered — in particular on a second call after
a prior disconnect removed the entry; the PostgreSQL, SQLite and
key-value adapters' `disconnect` always returns `Ok`; the MySQL
adapter's `disconnect`, however, returns `ConnectionFailed` when the
pool shutdown reports an error, and the registry propagates a
registered adapter's disconnect outcome. -/
theorem disconnect_idempotent_amended :
    (∀ (st : Registry) (id : String), registryLookup st id = none →
      (ConnectionManager.disconnect st id).result = .ok ()) ∧
    (∀ (st : Registry) (id : String),
      registryLookup (ConnectionManager.disconnect st id).state id = none) ∧
    (∀ (st : Registry) (id : String),
      (ConnectionManager.disconnect
        (ConnectionManager.disconnect st id).state id).result = .ok ()) ∧
    PostgresAdapter.disconnect = .ok () ∧
    SqliteAdapter.disconnect = .ok () ∧
    RedisAdapter.disconnect = .ok () ∧
    (∀ e, MySqlAdapter.disconnect false (.error e) =
      .error (.ConnectionFailed e)) := by
  have hstate : ∀ (st : Registry) (id : String),
      registryLookup (ConnectionManager.disconnect st id).state id = none := by
    intro st id
    have hfind : ∀ (l : List (String × AdapterInst)),
        (l.filter (fun p => p.1 ≠ id)).find? (fun p => p.1 = id) = none := by
      intro l
      rw [List.find?_eq_none]
      intro x hx
      rcases List.mem_filter.1 hx with ⟨_, hne⟩
      simpa using hne
    rw [ConnectionManager.disconnect.eq_def]
    rcases h : registryRemove st id with ⟨removed, rest⟩
    have hrest : rest = st.filter (fun p => p.1 ≠ id) := by
      have := congrArg Prod.snd h
      simpa [registryRemove] using this.symm
    cases removed <;>
      simp [registryLookup, hrest, hfind]
  have hnone : ∀ (st : Registry) (id : String), registryLookup st id = none →
      (ConnectionManager.disconnect st id).result = .ok () := by
    intro st id hmiss
    rw [ConnectionManager.disconnect.eq_def]
    simp [registryRemove, hmiss]
  refine ⟨hnone, hstate, ?_, rfl, rfl, rfl, fun e => rfl⟩
  intro st id
  exact hnone _ _ (hstate st id)

/-- Concrete instantiation of `disconnect_idempotent_amended`:
disconnecting a never-registered identifier on an empty registry. -/
theorem disconnect_idempotent_amended_witness :
    registryLookup [] "ghost" = none ∧
    (ConnectionManager.disconnect [] "ghost").result = .ok () :=
  ⟨rfl, disconnect_idempotent_amended.1 [] "ghost" rfl⟩

/-- C5: re-`connect`-ing an identifier that is already bound replaces
the registry entry — the construction succeeds, a subsequent `get`
returns the newly constructed adapter, and the previously bound
adapter's own `disconnect` is never invoked by `connect`. -/
theorem reconnect_replaces_entry (st : Registry) (id : String)
    (old fresh : AdapterInst)
    (hbound : ConnectionManager.get st id = .ok old) :
    (ConnectionManager.connect st id (.ok fresh)).result = .ok () ∧
    ConnectionManager.get (ConnectionManager.connect st id (.ok fresh)).state id =
      .ok fresh ∧
    (ConnectionManager.connect st id (.ok fresh)).disconnectCalls = [] := by
  refine ⟨rfl, ?_, rfl⟩
  rw [ConnectionManager.connect.eq_def]
  simp [ConnectionManager.get, registryInsert, registryLookup, List.find?]

/-- Concrete instantiation of `reconnect_replaces_entry`: replacing the
adapter bound to `"conn-1"`. -/
theorem reconnect_replaces_entry_witness :
    ConnectionManager.get [("conn-1", { instId := 1, disconnectResult := .ok () })]
      "conn-1" = .ok { instId := 1, disconnectResult := .ok () } ∧
    ((ConnectionManager.connect
        [("conn-1", { instId := 1, disconnectResult := .ok () })] "conn-1"
        (.ok { instId := 2, disconnectResult := .ok () })).result = .ok () ∧
      ConnectionManager.get
        (ConnectionManager.connect
          [("conn-1", { instId := 1, disconnectResult := .ok () })] "conn-1"
          (.ok { instId := 2, disconnectResult := .ok () })).state "conn-1" =
        .ok { instId := 2, disconnectResult := .ok () } ∧
      (ConnectionManager.connect
        [("conn-1", { instId := 1, disconnectResult := .ok () })] "conn-1"
        (.ok { instId := 2, disconnectResult := .ok () })).disconnectCalls = []) :=
  ⟨rfl, reconnect_replaces_entry _ "conn-1" _ _ rfl⟩

/-- C1: for every adapter and every driver outcome, a successful
`execute_query` result satisfies `row_count == rows.length` and every
row has exactly `columns.length` cells. -/
theorem execute_query_result_invariant :
    (∀ (x : PgExec) (qr : QueryResult),
      PostgresAdapter.execute_query x = .ok qr → resultInvariant qr) ∧
    (∀ (x : MyExec) (qr : QueryResult),
      MySqlAdapter.execute_query x = .ok qr → resultInvariant qr) ∧
    (∀ (x : SqExec) (qr : QueryResult),
      SqliteAdapter.execute_query x = .ok qr → resultInvariant qr) ∧
    (∀ (connAttempt : Except String RedisConn) (timedOut : Bool)
        (sql : String) (t : Nat) (qr : QueryResult),
      RedisAdapter.execute_query connAttempt timedOut sql t = .ok qr →
      resultInvariant qr) := by
  refine ⟨?_, ?_, ?_, ?_⟩
  · intro x qr h
    cases x with
    | timeout => cases h
    | prepareErr e => cases h
    | queryErr stmt e => cases h
    | ok stmt rows t =>
      rw [PostgresAdapter.execute_query] at h
      cases h
      refine ⟨rfl, ?_⟩
      intro row hrow
      simp only [List.mem_map] at hrow
      obtain ⟨r, _, rfl⟩ := hrow
      simp [List.enum_length]
  · intro x qr h
    cases x with
    | timeout => cases h
    | connErr e => cases h
    | queryErr e => cases h
    | ok result t =>
      rw [MySqlAdapter.execute_query.eq_def] at h
      cases result with
      | nil =>
        cases h
        exact ⟨rfl, by intro row hrow; cases hrow⟩
      | cons r0 rest =>
        cases h
        refine ⟨rfl, ?_⟩
        intro row hrow
        simp only [List.mem_map] at hrow
        obtain ⟨r, _, rfl⟩ := hrow
        simp
  · intro x qr h
    cases x with
    | prepareErr e => cases h
    | queryMapErr stmt e => cases h
    | ok stmt fetched t =>
      rw [SqliteAdapter.execute_query] at h
      cases h
      refine ⟨rfl, ?_⟩
      intro row hrow
      simp only [List.mem_map] at hrow
      obtain ⟨r, _, rfl⟩ := hrow
      simp
  · intro connAttempt timedOut sql t qr h
    rw [RedisAdapter.execute_query.eq_def] at h
    cases timedOut with
    | true => cases h
    | false =>
      cases connAttempt with
      | error e => cases h
      | ok conn =>
        simp only [Bool.false_eq_true, if_false] at h
        by_cases hcmd : redisCmdOf sql = "KEYS" ∨ redisCmdOf sql = "SCAN" ∨
            redisCmdOf sql = "SELECT"
        · rw [if_pos hcmd] at h
          cases hk : conn.keysCmd
              (if redisCmdOf sql = "SELECT" then "*" else redisArgOf sql) with
          | error e => rw [hk] at h; cases h
          | ok keys =>
            rw [hk] at h
            cases h
            refine ⟨rfl, ?_⟩
            intro row hrow
            simp only [List.mem_map] at hrow
            obtain ⟨key, _, rfl⟩ := hrow
            exact redisScanRow_length conn key
        · rw [if_neg hcmd] at h
          by_cases hget : redisCmdOf sql = "GET"
          · rw [if_pos hget] at h
            cases h
            refine ⟨rfl, ?_⟩
            intro row hrow
            simp only [List.mem_singleton] at hrow
            subst hrow
            rfl
          · rw [if_neg hget] at h
            cases h

/-- Concrete instantiation of `execute_query_result_invariant`: a
one-column, one-row PostgreSQL result. -/
theorem execute_query_result_invariant_witness :
    resultInvariant { columns := ["name"],
                      rows := [[JsonValue.str "alice"]],
                      row_count := 1, execution_time_ms := 5 } :=
  execute_query_result_invariant.1
    (.ok { cols := [{ colName := "name", ty := .text }] }
      [fun _ => { getBool := none, getI16 := none, getI32 := none,
                  getI64 := none, getF32 := none, getF64 := none,
                  getString := some "alice" }] 5)
    _ rfl

/-- C2 counterexample: a MySQL byte value that is not valid UTF-8 — the
representation of a binary blob — is converted to `Null`, not to a
descriptive string as the claim states. -/
theorem mysql_bytes_null_counterexample :
    mysql_value_to_json (MyValue.Bytes none) = JsonValue.null ∧
    ∀ s, mysql_value_to_json (MyValue.Bytes none) ≠ JsonValue.str s :=
  ⟨rfl, fun s h => JsonValue.noConfusion h⟩

/-- C2 amended: every cell of every adapter's successful `execute_query`
result has one of the four normalized shapes (never an array or an
object) and the conversion itself never fails; unrepresentable values
degrade to a descriptive string where the code builds one (SQLite blobs,
MySQL temporal/other values) but to `Null` for MySQL byte values that
are not valid UTF-8. -/
theorem normalized_value_shapes :
    (∀ (x : PgExec) (qr : QueryResult),
      PostgresAdapter.execute_query x = .ok qr → resultCellsScalar qr) ∧
    (∀ (x : MyExec) (qr : QueryResult),
      MySqlAdapter.execute_query x = .ok qr → resultCellsScalar qr) ∧
    (∀ (x : SqExec) (qr : QueryResult),
      SqliteAdapter.execute_query x = .ok qr → resultCellsScalar qr) ∧
    (∀ (connAttempt : Except String RedisConn) (timedOut : Bool)
        (sql : String) (t : Nat) (qr : QueryResult),
      RedisAdapter.execute_query connAttempt timedOut sql t = .ok qr →
      resultCellsScalar qr) ∧
    (∀ (row : SqRow) (idx : Nat) (len : Nat),
      row.get_ref idx = .ok (.Blob len) →
      sqlite_value_to_json row idx = .str s!"<blob {len} bytes>") ∧
    (∀ d, mysql_value_to_json (.other d) = .str d) ∧
    mysql_value_to_json (.Bytes none) = .null := by
  refine ⟨?_, ?_, ?_, ?_, ?_, fun d => rfl, rfl⟩
  · intro x qr h
    cases x with
    | timeout => cases h
    | prepareErr e => cases h
    | queryErr stmt e => cases h
    | ok stmt rows t =>
      rw [PostgresAdapter.execute_query] at h
      cases h
      intro row hrow v hv
      simp only [List.mem_map] at hrow
      obtain ⟨r, _, rfl⟩ := hrow
      simp only [List.mem_map] at hv
      obtain ⟨ic, _, rfl⟩ := hv
      exact pg_value_to_json_scalar _ _
  · intro x qr h
    cases x with
    | timeout => cases h
    | connErr e => cases h
    | queryErr e => cases h
    | ok result t =>
      rw [MySqlAdapter.execute_query.eq_def] at h
      cases result with
      | nil =>
        cases h
        intro row hrow
        cases hrow
      | cons r0 rest =>
        cases h
        intro row hrow v hv
        simp only [List.mem_map] at hrow
        obtain ⟨r, _, rfl⟩ := hrow
        simp only [List.mem_map] at hv
        obtain ⟨i, _, rfl⟩ := hv
        exact mysql_value_to_json_scalar _
  · intro x qr h
    cases x with
    | prepareErr e => cases h
    | queryMapErr stmt e => cases h
    | ok stmt fetched t =>
      rw [SqliteAdapter.execute_query] at h
      cases h
      intro row hrow v hv
      simp only [List.mem_map] at hrow
      obtain ⟨r, _, rfl⟩ := hrow
      simp only [List.mem_map] at hv
      obtain ⟨i, _, rfl⟩ := hv
      exact sqlite_value_to_json_scalar _ _
  · intro connAttempt timedOut sql t qr h
    rw [RedisAdapter.execute_query.eq_def] at h
    cases timedOut with
    | true => cases h
    | false =>
      cases connAttempt with
      | error e => cases h
      | ok conn =>
        simp only [Bool.false_eq_true, if_false] at h
        by_cases hcmd : redisCmdOf sql = "KEYS" ∨ redisCmdOf sql = "SCAN" ∨
            redisCmdOf sql = "SELECT"
        · rw [if_pos hcmd] at h
          cases hk : conn.keysCmd
              (if redisCmdOf sql = "SELECT" then "*" else redisArgOf sql) with
          | error e => rw [hk] at h; cases h
          | ok keys =>
            rw [hk] at h
            cases h
            intro row hrow v hv
            simp only [List.mem_map] at hrow
            obtain ⟨key, _, rfl⟩ := hrow
            exact redisScanRow_scalar conn key v hv
        · rw [if_neg hcmd] at h
          by_cases hget : redisCmdOf sql = "GET"
          · rw [if_pos hget] at h
            cases h
            intro row hrow v hv
            simp only [List.mem_singleton] at hrow
            subst hrow
            simp only [List.mem_cons, List.mem_singleton] at hv
            rcases hv with rfl | rfl | hv
            · rfl
            · cases hg : (conn.getCmd (redisArgOf sql)).toOption <;>
                simp [hg, JsonValue.isScalar]
            · cases hv
          · rw [if_neg hget] at h
            cases h
  · intro row idx len hblob
    simp [sqlite_value_to_json, hblob]

/-- Concrete instantiation of `normalized_value_shapes`: the SQLite blob
clause at a three-byte blob. -/
theorem normalized_value_shapes_witness :
    ({ get_ref := fun _ => .ok (.Blob 3) } : SqRow).get_ref 0 =
        .ok (.Blob 3) ∧
    sqlite_value_to_json { get_ref := fun _ => .ok (.Blob 3) } 0 =
      .str "<blob 3 bytes>" :=
  ⟨rfl, normalized_value_shapes.2.2.2.2.1
    { get_ref := fun _ => .ok (.Blob 3) } 0 3 rfl⟩

/-- C10: whenever the MySQL adapter's `execute_query` succeeds with zero
rows its columns list is empty (the selected column names are not
reported), whereas the PostgreSQL and SQLite adapters always report the
prepared statement's column names, rows or no rows. -/
theorem mysql_empty_columns_divergence :
    (∀ (x : MyExec) (qr : QueryResult),
      MySqlAdapter.execute_query x = .ok qr → qr.rows = [] →
      qr.columns = []) ∧
    (∀ (stmt : PgStmt) (rows : List (Nat → PgCell)) (t : Nat)
        (qr : QueryResult),
      PostgresAdapter.execute_query (.ok stmt rows t) = .ok qr →
      qr.columns = stmt.cols.map (·.colName)) ∧
    (∀ (stmt : SqStmt) (rows : List (Except Unit SqRow)) (t : Nat)
        (qr : QueryResult),
      SqliteAdapter.execute_query (.ok stmt rows t) = .ok qr →
      qr.columns = stmt.column_names) := by
  refine ⟨?_, ?_, ?_⟩
  · intro x qr h hrows
    cases x with
    | timeout => cases h
    | connErr e => cases h
    | queryErr e => cases h
    | ok result t =>
      rw [MySqlAdapter.execute_query.eq_def] at h
      cases result with
      | nil => cases h; rfl
      | cons r0 rest =>
        cases h
        exact absurd hrows (by simp)
  · intro stmt rows t qr h
    rw [PostgresAdapter.execute_query] at h
    cases h
    rfl
  · intro stmt rows t qr h
    rw [SqliteAdapter.execute_query] at h
    cases h
    rfl

/-- Concrete instantiation of `mysql_empty_columns_divergence`: an empty
MySQL driver result yields an empty columns list. -/
theorem mysql_empty_columns_divergence_witness :
    MySqlAdapter.execute_query (.ok [] 4) =
      .ok { columns := [], rows := [], row_count := 0,
            execution_time_ms := 4 } ∧
    ({ columns := [], rows := [], row_count := 0,
       execution_time_ms := 4 } : QueryResult).columns = [] :=
  ⟨rfl, mysql_empty_columns_divergence.1 (.ok [] 4) _ rfl rfl⟩

/-- C3 counterexample: with a healthy key-value connection,
`get_table_metadata "missing"` returns `Ok` with the "keys" pseudo-table
metadata even though "missing" is not among the table names returned by
`get_schema` — it is not the `NotFound` error the claim requires of
every adapter. -/
theorem redis_metadata_ignores_name_counterexample :
    RedisAdapter.get_schema (.ok scanConnSample) false =
      .ok [keysPseudoTable 5] ∧
    (keysPseudoTable 5).name ≠ "missing" ∧
    RedisAdapter.get_table_metadata (.ok scanConnSample) false "missing" =
      .ok { schema := keysPseudoTable 5, indexes := [], foreign_keys := [] } :=
  ⟨rfl, by decide, rfl⟩

/-- C3 amended: the PostgreSQL, MySQL and SQLite adapters return the
`NotFound` error for every table name absent from their `get_schema`
result; the key-value adapter instead ignores the requested name and,
whenever its `get_schema` succeeds, returns the "keys" pseudo-table
metadata for any name whatsoever. -/
theorem table_metadata_notfound :
    (∀ (tables : List TableSchema) (timedOut : Bool)
        (idxQuery : Except String (List PgIdxRow))
        (fkQuery : Except String (List PgFkRow)) (table : String),
      (∀ t ∈ tables, t.name ≠ table) →
      PostgresAdapter.get_table_metadata (.ok tables) timedOut idxQuery
        fkQuery table = .error (.NotFound s!"Table {table} not found")) ∧
    (∀ (tables : List TableSchema) (timedOut : Bool)
        (idxQuery : Except String (List (String × String × Int)))
        (fkQuery : Except String (List (String × String × String × String)))
        (table : String),
      (∀ t ∈ tables, t.name ≠ table) →
      MySqlAdapter.get_table_metadata (.ok tables) timedOut idxQuery
        fkQuery table = .error (.NotFound s!"Table {table} not found")) ∧
    (∀ (tables : List TableSchema)
        (idxListQuery : Except String (List (Option (String × Bool))))
        (infoQuery : String → Except String (List (Option String)))
        (fkQuery : Except String (List (Option SqFkRow))) (table : String),
      (∀ t ∈ tables, t.name ≠ table) →
      SqliteAdapter.get_table_metadata (.ok tables) idxListQuery infoQuery
        fkQuery table = .error (.NotFound s!"Table {table} not found")) ∧
    (∀ (conn : RedisConn) (db_size : Nat) (table : String),
      conn.dbsizeCmd = .ok db_size →
      RedisAdapter.get_table_metadata (.ok conn) false table =
        .ok { schema := keysPseudoTable db_size, indexes := [],
              foreign_keys := [] }) := by
  have hfind : ∀ (tables : List TableSchema) (table : String),
      (∀ t ∈ tables, t.name ≠ table) →
      tables.find? (fun t => t.name = table) = none := by
    intro tables table habs
    rw [List.find?_eq_none]
    intro t ht
    simpa using habs t ht
  refine ⟨?_, ?_, ?_, ?_⟩
  · intro tables timedOut idxQuery fkQuery table habs
    rw [PostgresAdapter.get_table_metadata.eq_def]
    simp [hfind tables table habs]
  · intro tables timedOut idxQuery fkQuery table habs
    rw [MySqlAdapter.get_table_metadata.eq_def]
    simp [hfind tables table habs]
  · intro tables idxListQuery infoQuery fkQuery table habs
    rw [SqliteAdapter.get_table_metadata.eq_def]
    simp [hfind tables table habs]
  · intro conn db_size table hdb
    rw [RedisAdapter.get_table_metadata.eq_def, RedisAdapter.get_schema.eq_def]
    simp [hdb]

/-- A one-table schema used to instantiate the `NotFound` clause. -/
def usersTableSample : TableSchema :=
  { name := "users", columns := [], row_count := 0 }

/-- Concrete instantiation of `table_metadata_notfound`: the PostgreSQL
adapter on a one-table schema and an absent table name. -/
theorem table_metadata_notfound_witness :
    (∀ t ∈ [usersTableSample], t.name ≠ "orders") ∧
    PostgresAdapter.get_table_metadata (.ok [usersTableSample]) false
        (.ok []) (.ok []) "orders" =
      .error (.NotFound "Table orders not found") :=
  ⟨by decide, table_metadata_notfound.1 [usersTableSample] false
    (.ok []) (.ok []) "orders" (by decide)⟩
